import Mathlib

/-!
Shallow embedding of `onnxruntime/contrib_ops/cpu/transformers/subgraph_t5_encoder.cc`
(`T5EncoderSubgraph::Validate` and `T5EncoderSubgraph::CreateInitialFeeds`),
together with spec-modelled definitions for the base-class pieces that are not
part of this source file (the Parameter Extractor `Subgraph::GetParameters`
and the two externally supplied device hooks).
-/

/-- ONNX element-type code for 32-bit float tensors (`TensorProto_DataType_FLOAT`). -/
def TensorProto_DataType_FLOAT : Int := 1

/-- ONNX element-type code for 32-bit integer tensors (`TensorProto_DataType_INT32`). -/
def TensorProto_DataType_INT32 : Int := 6

/-- ONNX element-type code for 16-bit float tensors (`TensorProto_DataType_FLOAT16`). -/
def TensorProto_DataType_FLOAT16 : Int := 10

/-- A subgraph input/output descriptor (onnxruntime `NodeArg`): a name, the
element-type code returned by `TypeAsProto()->tensor_type().elem_type()`, and
the declared shape. The shape is `none` when `Shape()` is a null pointer;
each dimension is `none` when it is symbolic (no fixed `dim_value`). -/
structure NodeArg where
  name : String
  elem_type : Int
  shape : Option (List (Option Int))
deriving DecidableEq, Inhabited

/-- The mutable state of a `T5EncoderSubgraph` object, as far as `Validate` and
`CreateInitialFeeds` can observe or modify it.  `num_subgraph_inputs` and
`num_subgraph_outputs` are the counts captured by the base-class constructor;
`num_layers`, `num_heads`, `head_size`, `hidden_size` and `is_output_float16_`
are the ModelParameters fields written by `Validate`; `session_state_` is the
execution-resource binding installed by `Setup` (`none` models a null pointer);
`other_members` stands for every remaining member of the object (graph
references, input-name caches, allocator, implicit-input count, ...), which
none of the embedded operations touch. -/
structure SubgraphState where
  num_subgraph_inputs : Int
  num_subgraph_outputs : Int
  num_layers : Int
  num_heads : Int
  head_size : Int
  hidden_size : Int
  is_output_float16_ : Bool
  session_state_ : Option Nat
  other_members : Nat
deriving DecidableEq

/-- Modelled from the spec: `Subgraph::GetParameters`, the Parameter Extractor
of spec section 4.2, is base-class code that is not under `src/`.  Per the
spec it requires the cache-tensor shape to have the fixed per-layer cache rank
(batch-times-beam, heads, sequence, head-size); the logits shape must expose a
trailing hidden dimension; it fails with a shape-inference error when a
required dimension is symbolic or missing, or when num_heads times head_size
does not reconcile with the hidden size implied by the logits shape.  On
success it yields (num_heads, head_size, hidden_size). -/
def GetParameters (past_shape logits_shape : Option (List (Option Int))) :
    Except String (Int × Int × Int) :=
  match past_shape with
  | some [_, some num_heads, _, some head_size] =>
    match logits_shape with
    | some logits_dims =>
      match logits_dims.getLast? with
      | some (some hidden) =>
        if num_heads * head_size = hidden then
          Except.ok (num_heads, head_size, hidden)
        else
          Except.error "ShapeInferenceError: num_heads * head_size does not match hidden size"
      | _ => Except.error "ShapeInferenceError: logits shape has no concrete trailing dimension"
    | none => Except.error "ShapeInferenceError: logits shape is missing"
  | _ => Except.error "ShapeInferenceError: cache shape is not a concrete rank-4 cache layout"

/-- Embedding of `T5EncoderSubgraph::Validate` (subgraph_t5_encoder.cc lines
20-71).  The checks run in source order: input count (line 24), output count
(lines 26-27), the three input names (lines 29-34), the four output names
(lines 36-46), `GetParameters` on output 2's and output 0's shapes (line 52),
the `num_layers` assignment (line 53), the three input element types (lines
55-62), the output 0 element type (lines 64-66) and the `is_output_float16_`
assignment (line 68).  The result is the returned `Status` (`none` for OK)
paired with the object state after the call; note the source mutates the
parameter fields before the element-type checks, so a dtype failure still
returns the mutated state. -/
def Validate (s : SubgraphState) (subgraph_inputs subgraph_outputs : List NodeArg) :
    Option String × SubgraphState :=
  if s.num_subgraph_inputs ≠ 3 then
    (some ("expect 3 inputs, got:" ++ toString s.num_subgraph_inputs), s)
  else if s.num_subgraph_outputs < 6 then
    (some ("expect >=6 outputs, got:" ++ toString s.num_subgraph_outputs), s)
  else if ((subgraph_outputs.length : Int) - 2) % 4 ≠ 0 then
    (some ("number of outputs expected to be 2 + 4 * layers, got:" ++
      toString s.num_subgraph_outputs), s)
  else if (subgraph_inputs.getD 0 default).name ≠ "encoder_input_ids" then
    (some ("subgraph input 0 shall be named as encoder_input_ids, got: " ++
      (subgraph_inputs.getD 0 default).name), s)
  else if (subgraph_inputs.getD 1 default).name ≠ "encoder_attention_mask" then
    (some ("subgraph input 1 shall be named as encoder_attention_mask, got: " ++
      (subgraph_inputs.getD 1 default).name), s)
  else if (subgraph_inputs.getD 2 default).name ≠ "decoder_input_ids" then
    (some ("subgraph input 2 shall be named as decoder_input_ids, got: " ++
      (subgraph_inputs.getD 2 default).name), s)
  else if (subgraph_outputs.getD 0 default).name ≠ "logits" then
    (some ("subgraph output 0 shall be named as logits, got: " ++
      (subgraph_outputs.getD 0 default).name), s)
  else if (subgraph_outputs.getD 1 default).name ≠ "encoder_hidden_states" then
    (some ("subgraph output 1 shall be named as encoder_hidden_states, got: " ++
      (subgraph_outputs.getD 1 default).name), s)
  else if (subgraph_outputs.getD 2 default).name ≠ "present_key_self_0" then
    (some ("subgraph output 2 shall be named as present_key_self_0, got: " ++
      (subgraph_outputs.getD 2 default).name), s)
  else if (subgraph_outputs.getD 3 default).name ≠ "present_value_self_0" then
    (some ("subgraph output 3 shall be named as present_value_self_0, got: " ++
      (subgraph_outputs.getD 3 default).name), s)
  else
    match GetParameters (subgraph_outputs.getD 2 default).shape
        (subgraph_outputs.getD 0 default).shape with
    | Except.error e => (some e, s)
    | Except.ok (nh, hs, hid) =>
      let s2 : SubgraphState :=
        { s with
          num_heads := nh
          head_size := hs
          hidden_size := hid
          num_layers := ((subgraph_outputs.length : Int) - 2) / 4 }
      if (subgraph_inputs.getD 0 default).elem_type ≠ TensorProto_DataType_INT32 then
        (some "subgraph input 0 (input_ids) shall have int32 type", s2)
      else if (subgraph_inputs.getD 1 default).elem_type ≠ TensorProto_DataType_INT32 then
        (some "subgraph input 1 (position_ids) shall have int32 type", s2)
      else if (subgraph_inputs.getD 2 default).elem_type ≠ TensorProto_DataType_INT32 then
        (some "subgraph input 2 (position_ids) shall have int32 type", s2)
      else if (subgraph_outputs.getD 0 default).elem_type ≠ TensorProto_DataType_FLOAT ∧
          (subgraph_outputs.getD 0 default).elem_type ≠ TensorProto_DataType_FLOAT16 then
        (some "subgraph output 0 (logits) shall be float or float16 data type", s2)
      else
        (none, { s2 with is_output_float16_ :=
          (subgraph_outputs.getD 0 default).elem_type == TensorProto_DataType_FLOAT16 })

/-- An `OrtValue` as the Feed Builder handles it: an opaque tensor value.  The
payload is abstract; this core only moves `OrtValue`s around. -/
structure OrtValue where
  val : Nat
deriving DecidableEq, Inhabited

/-- A `Tensor` as `CreateInitialFeeds` receives it: only its memory location is
observable here (used to pick the allocator, which is opaque plumbing). -/
structure Tensor where
  location : Nat
deriving DecidableEq, Inhabited

/-- The Encoder-Input Expansion hook
(`BeamSearchDeviceHelper::CreateEncoderInputsFunc`): given the encoder input
ids, num_beams, pad token, start token and the caller's sequence-length span,
it returns a status (`none` for OK), the sequence-length span contents after
the call (the span is mutated by reference), and the three beam-expanded
tensors.  The allocator argument of the C++ signature is opaque plumbing and
is not represented. -/
abbrev CreateEncoderInputsFunc :=
  Tensor → Int → Int → Int → List Int → Option String × List Int × OrtValue × OrtValue × OrtValue

/-- The Feed Assembly hook (`BeamSearchDeviceHelper::AddToFeedsFunc`): given
the three expanded tensors, the feeds vector and the scratch buffer, it
returns a status, the feeds vector after the call and the buffer after the
call (both are mutated by reference).  The execution-provider argument of the
C++ signature is opaque plumbing and is not represented. -/
abbrev AddToFeedsFunc :=
  OrtValue → OrtValue → OrtValue → List OrtValue → Nat → Option String × List OrtValue × Nat

/-- Embedding of `T5EncoderSubgraph::CreateInitialFeeds` (subgraph_t5_encoder.cc
lines 74-106).  It first enforces that `Setup` has run (`session_state_` not
null, line 85), then invokes the Encoder-Input Expansion hook (line 96),
propagating its error, then the Feed Assembly hook (line 99), propagating its
error, and finally appends each implicit input to the feeds in order (lines
101-103).  The result models the `Status` return value together with the
final contents of the three by-reference outputs: feeds, sequence_lengths and
buffer. -/
def CreateInitialFeeds (s : SubgraphState) (encoder_input_ids : Tensor)
    (implicit_inputs : List OrtValue) (num_beams pad_token_id start_token_id : Int)
    (sequence_lengths : List Int) (feeds : List OrtValue) (buffer : Nat)
    (create_encoder_inputs_func : CreateEncoderInputsFunc)
    (add_to_feeds_func : AddToFeedsFunc) :
    Option String × List OrtValue × List Int × Nat :=
  if s.session_state_ = none then
    (some "Setup must be called before CreateInitialFeeds", feeds, sequence_lengths, buffer)
  else
    match create_encoder_inputs_func encoder_input_ids num_beams pad_token_id start_token_id
        sequence_lengths with
    | (some e, seq1, _, _, _) => (some e, feeds, seq1, buffer)
    | (none, seq1, expanded_ids, expanded_mask, expanded_dec) =>
      match add_to_feeds_func expanded_ids expanded_mask expanded_dec feeds buffer with
      | (some e, feeds1, buffer1) => (some e, feeds1, seq1, buffer1)
      | (none, feeds1, buffer1) => (none, feeds1 ++ implicit_inputs, seq1, buffer1)

/-- Modelled from the spec: the concrete Encoder-Input Expansion hook
implementations and the caller-side allocation of `SequenceLengths` are not
under `src/`.  Spec section 4.3 steps 2-3: `SequenceLengths` is sized
batch_size times num_beams, and expansion replicates each original batch row
`num_beams` times contiguously (batch-major, beam-minor), every beam within a
batch row starting with an identical sequence length.  `original_lengths` is
the per-batch-row sequence length (one entry per batch row). -/
def expandSequenceLengths (original_lengths : List Int) (num_beams : Nat) : List Int :=
  (original_lengths.map (fun len => List.replicate num_beams len)).flatten

/-- Modelled from the spec: a hook satisfying the Encoder-Input Expansion
contract of spec sections 4.3 and 6 (the concrete implementations are not
under `src/`): it succeeds, fills the sequence-length buffer with the
beam-replicated per-row lengths, and produces the three expanded tensors. -/
def specEncoderInputsHook (original_lengths : List Int)
    (expanded_ids expanded_mask expanded_dec : OrtValue) : CreateEncoderInputsFunc :=
  fun _ num_beams _ _ _ =>
    (none, expandSequenceLengths original_lengths num_beams.toNat,
      expanded_ids, expanded_mask, expanded_dec)


/-- C1: for every layer count L ≥ 1, a subgraph signature that satisfies the
contract (3 correctly named int32 inputs, correctly named outputs, shapes on
which parameter extraction succeeds) and has output count 2 + 4L is accepted
by `Validate`, the resulting parameters have `num_layers = L`, and whether
output 0 is reduced precision (float16) is recorded. -/
theorem validate_accepts_contract
    (s : SubgraphState) (subgraph_inputs subgraph_outputs : List NodeArg)
    (L : Nat) (hL : 1 ≤ L)
    (i0 i1 i2 o0 o1 o2 o3 : NodeArg) (rest : List NodeArg)
    (hins : subgraph_inputs = [i0, i1, i2])
    (houts : subgraph_outputs = o0 :: o1 :: o2 :: o3 :: rest)
    (hwin : s.num_subgraph_inputs = 3)
    (hwout : s.num_subgraph_outputs = (subgraph_outputs.length : Int))
    (hcount : subgraph_outputs.length = 2 + 4 * L)
    (hn0 : i0.name = "encoder_input_ids")
    (hn1 : i1.name = "encoder_attention_mask")
    (hn2 : i2.name = "decoder_input_ids")
    (hm0 : o0.name = "logits")
    (hm1 : o1.name = "encoder_hidden_states")
    (hm2 : o2.name = "present_key_self_0")
    (hm3 : o3.name = "present_value_self_0")
    (ht0 : i0.elem_type = TensorProto_DataType_INT32)
    (ht1 : i1.elem_type = TensorProto_DataType_INT32)
    (ht2 : i2.elem_type = TensorProto_DataType_INT32)
    (nh hs hid : Int)
    (hGP : GetParameters o2.shape o0.shape = Except.ok (nh, hs, hid))
    (hout0 : o0.elem_type = TensorProto_DataType_FLOAT ∨
      o0.elem_type = TensorProto_DataType_FLOAT16) :
    (Validate s subgraph_inputs subgraph_outputs).1 = none ∧
    (Validate s subgraph_inputs subgraph_outputs).2.num_layers = (L : Int) ∧
    (Validate s subgraph_inputs subgraph_outputs).2.is_output_float16_ =
      (o0.elem_type == TensorProto_DataType_FLOAT16) := by
  subst hins houts
  have c1 : ¬(s.num_subgraph_inputs ≠ 3) := by rw [hwin]; simp
  have c2 : ¬(s.num_subgraph_outputs < 6) := by
    rw [hwout, hcount]; push_cast; omega
  have c3 : ¬((((o0 :: o1 :: o2 :: o3 :: rest).length : Int) - 2) % 4 ≠ 0) := by
    rw [hcount]; push_cast; omega
  have c4 : (((o0 :: o1 :: o2 :: o3 :: rest).length : Int) - 2) / 4 = (L : Int) := by
    rw [hcount]; push_cast; omega
  unfold Validate
  rw [if_neg c1, if_neg c2, if_neg c3]
  simp only [List.getD_cons_zero, List.getD_cons_succ]
  rw [hn0, hn1, hn2, hm0, hm1, hm2, hm3, hGP, c4]
  rcases hout0 with hf | hf <;>
    simp [ht0, ht1, ht2, hf, TensorProto_DataType_FLOAT, TensorProto_DataType_FLOAT16,
      TensorProto_DataType_INT32]

/-- Witness for C1: a concrete one-layer signature with the contract names,
int32 inputs, a float logits output and resolvable shapes is accepted with
`num_layers = 1` and `is_output_float16_ = false`. -/
theorem validate_accepts_contract_witness :
    (Validate ⟨3, 6, 0, 0, 0, 0, false, none, 7⟩
      [⟨"encoder_input_ids", 6, none⟩, ⟨"encoder_attention_mask", 6, none⟩,
       ⟨"decoder_input_ids", 6, none⟩]
      [⟨"logits", 1, some [none, none, some 512]⟩, ⟨"encoder_hidden_states", 1, none⟩,
       ⟨"present_key_self_0", 1, some [none, some 8, none, some 64]⟩,
       ⟨"present_value_self_0", 1, none⟩, ⟨"present_key_cross_0", 1, none⟩,
       ⟨"present_value_cross_0", 1, none⟩]).1 = none ∧
    (Validate ⟨3, 6, 0, 0, 0, 0, false, none, 7⟩
      [⟨"encoder_input_ids", 6, none⟩, ⟨"encoder_attention_mask", 6, none⟩,
       ⟨"decoder_input_ids", 6, none⟩]
      [⟨"logits", 1, some [none, none, some 512]⟩, ⟨"encoder_hidden_states", 1, none⟩,
       ⟨"present_key_self_0", 1, some [none, some 8, none, some 64]⟩,
       ⟨"present_value_self_0", 1, none⟩, ⟨"present_key_cross_0", 1, none⟩,
       ⟨"present_value_cross_0", 1, none⟩]).2.num_layers = ((1 : Nat) : Int) ∧
    (Validate ⟨3, 6, 0, 0, 0, 0, false, none, 7⟩
      [⟨"encoder_input_ids", 6, none⟩, ⟨"encoder_attention_mask", 6, none⟩,
       ⟨"decoder_input_ids", 6, none⟩]
      [⟨"logits", 1, some [none, none, some 512]⟩, ⟨"encoder_hidden_states", 1, none⟩,
       ⟨"present_key_self_0", 1, some [none, some 8, none, some 64]⟩,
       ⟨"present_value_self_0", 1, none⟩, ⟨"present_key_cross_0", 1, none⟩,
       ⟨"present_value_cross_0", 1, none⟩]).2.is_output_float16_ =
      (((1 : Int)) == TensorProto_DataType_FLOAT16) :=
  validate_accepts_contract ⟨3, 6, 0, 0, 0, 0, false, none, 7⟩ _ _ 1 (by decide)
    ⟨"encoder_input_ids", 6, none⟩ ⟨"encoder_attention_mask", 6, none⟩
    ⟨"decoder_input_ids", 6, none⟩
    ⟨"logits", 1, some [none, none, some 512]⟩ ⟨"encoder_hidden_states", 1, none⟩
    ⟨"present_key_self_0", 1, some [none, some 8, none, some 64]⟩
    ⟨"present_value_self_0", 1, none⟩
    [⟨"present_key_cross_0", 1, none⟩, ⟨"present_value_cross_0", 1, none⟩]
    rfl rfl (by decide) (by decide) (by decide)
    rfl rfl rfl rfl rfl rfl rfl (by decide) (by decide) (by decide)
    8 64 512 rfl (Or.inl (by decide))

/-- C3: `Validate` fails on the output-count check for every signature whose
output count is below 6 or whose (output_count − 2) is not divisible by 4
(given that the input-count check before it passes, i.e. the captured input
count is 3), and it never accepts such a signature. -/
theorem validate_wrong_output_count
    (s : SubgraphState) (subgraph_inputs subgraph_outputs : List NodeArg)
    (hwout : s.num_subgraph_outputs = (subgraph_outputs.length : Int))
    (hbad : subgraph_outputs.length < 6 ∨
      ((subgraph_outputs.length : Int) - 2) % 4 ≠ 0) :
    (s.num_subgraph_inputs = 3 →
      (Validate s subgraph_inputs subgraph_outputs).1 =
        some ("expect >=6 outputs, got:" ++ toString s.num_subgraph_outputs) ∨
      (Validate s subgraph_inputs subgraph_outputs).1 =
        some ("number of outputs expected to be 2 + 4 * layers, got:" ++
          toString s.num_subgraph_outputs)) ∧
    (Validate s subgraph_inputs subgraph_outputs).1 ≠ none := by
  constructor
  · intro hin
    unfold Validate
    rw [if_neg (by simp [hin])]
    by_cases h6 : s.num_subgraph_outputs < 6
    · rw [if_pos h6]
      exact Or.inl rfl
    · have hmod : ((subgraph_outputs.length : Int) - 2) % 4 ≠ 0 := by
        rcases hbad with h | h
        · exact absurd (by rw [hwout]; exact_mod_cast h) h6
        · exact h
      rw [if_neg h6, if_pos hmod]
      exact Or.inr rfl
  · unfold Validate
    by_cases hin : s.num_subgraph_inputs ≠ 3
    · rw [if_pos hin]; simp
    · rw [if_neg hin]
      by_cases h6 : s.num_subgraph_outputs < 6
      · rw [if_pos h6]; simp
      · have hmod : ((subgraph_outputs.length : Int) - 2) % 4 ≠ 0 := by
          rcases hbad with h | h
          · exact absurd (by rw [hwout]; exact_mod_cast h) h6
          · exact h
        rw [if_neg h6, if_pos hmod]
        simp

/-- Witness for C3: a signature with 3 inputs but only 5 outputs is rejected
with one of the two output-count errors and is not accepted. -/
theorem validate_wrong_output_count_witness :
    ((⟨3, 5, 0, 0, 0, 0, false, none, 0⟩ : SubgraphState).num_subgraph_inputs = 3 →
      (Validate ⟨3, 5, 0, 0, 0, 0, false, none, 0⟩ []
        [⟨"logits", 1, none⟩, ⟨"encoder_hidden_states", 1, none⟩,
         ⟨"present_key_self_0", 1, none⟩, ⟨"present_value_self_0", 1, none⟩,
         ⟨"present_key_cross_0", 1, none⟩]).1 =
        some ("expect >=6 outputs, got:" ++
          toString (⟨3, 5, 0, 0, 0, 0, false, none, 0⟩ : SubgraphState).num_subgraph_outputs) ∨
      (Validate ⟨3, 5, 0, 0, 0, 0, false, none, 0⟩ []
        [⟨"logits", 1, none⟩, ⟨"encoder_hidden_states", 1, none⟩,
         ⟨"present_key_self_0", 1, none⟩, ⟨"present_value_self_0", 1, none⟩,
         ⟨"present_key_cross_0", 1, none⟩]).1 =
        some ("number of outputs expected to be 2 + 4 * layers, got:" ++
          toString (⟨3, 5, 0, 0, 0, 0, false, none, 0⟩ : SubgraphState).num_subgraph_outputs)) ∧
    (Validate ⟨3, 5, 0, 0, 0, 0, false, none, 0⟩ []
      [⟨"logits", 1, none⟩, ⟨"encoder_hidden_states", 1, none⟩,
       ⟨"present_key_self_0", 1, none⟩, ⟨"present_value_self_0", 1, none⟩,
       ⟨"present_key_cross_0", 1, none⟩]).1 ≠ none :=
  validate_wrong_output_count ⟨3, 5, 0, 0, 0, 0, false, none, 0⟩ _ _
    (by decide) (Or.inl (by decide))

/-- C4: past the count checks, `Validate` fails with the name-mismatch error
citing the offending position whenever one of the three fixed-position input
names or four fixed-position output names is wrong: each conjunct says that if
every earlier checked name is correct and the name at this position differs
from its required value, the returned error is the message for exactly this
position (quoting the actual name found there). -/
theorem validate_name_mismatch
    (s : SubgraphState) (subgraph_inputs subgraph_outputs : List NodeArg)
    (i0 i1 i2 o0 o1 o2 o3 : NodeArg) (rest : List NodeArg)
    (hins : subgraph_inputs = [i0, i1, i2])
    (houts : subgraph_outputs = o0 :: o1 :: o2 :: o3 :: rest)
    (hwin : s.num_subgraph_inputs = 3)
    (hwout : s.num_subgraph_outputs = (subgraph_outputs.length : Int))
    (h6 : 6 ≤ subgraph_outputs.length)
    (hmod : ((subgraph_outputs.length : Int) - 2) % 4 = 0) :
    (i0.name ≠ "encoder_input_ids" →
      (Validate s subgraph_inputs subgraph_outputs).1 =
        some ("subgraph input 0 shall be named as encoder_input_ids, got: " ++ i0.name)) ∧
    (i0.name = "encoder_input_ids" → i1.name ≠ "encoder_attention_mask" →
      (Validate s subgraph_inputs subgraph_outputs).1 =
        some ("subgraph input 1 shall be named as encoder_attention_mask, got: " ++ i1.name)) ∧
    (i0.name = "encoder_input_ids" → i1.name = "encoder_attention_mask" →
      i2.name ≠ "decoder_input_ids" →
      (Validate s subgraph_inputs subgraph_outputs).1 =
        some ("subgraph input 2 shall be named as decoder_input_ids, got: " ++ i2.name)) ∧
    (i0.name = "encoder_input_ids" → i1.name = "encoder_attention_mask" →
      i2.name = "decoder_input_ids" → o0.name ≠ "logits" →
      (Validate s subgraph_inputs subgraph_outputs).1 =
        some ("subgraph output 0 shall be named as logits, got: " ++ o0.name)) ∧
    (i0.name = "encoder_input_ids" → i1.name = "encoder_attention_mask" →
      i2.name = "decoder_input_ids" → o0.name = "logits" →
      o1.name ≠ "encoder_hidden_states" →
      (Validate s subgraph_inputs subgraph_outputs).1 =
        some ("subgraph output 1 shall be named as encoder_hidden_states, got: " ++ o1.name)) ∧
    (i0.name = "encoder_input_ids" → i1.name = "encoder_attention_mask" →
      i2.name = "decoder_input_ids" → o0.name = "logits" →
      o1.name = "encoder_hidden_states" → o2.name ≠ "present_key_self_0" →
      (Validate s subgraph_inputs subgraph_outputs).1 =
        some ("subgraph output 2 shall be named as present_key_self_0, got: " ++ o2.name)) ∧
    (i0.name = "encoder_input_ids" → i1.name = "encoder_attention_mask" →
      i2.name = "decoder_input_ids" → o0.name = "logits" →
      o1.name = "encoder_hidden_states" → o2.name = "present_key_self_0" →
      o3.name ≠ "present_value_self_0" →
      (Validate s subgraph_inputs subgraph_outputs).1 =
        some ("subgraph output 3 shall be named as present_value_self_0, got: " ++ o3.name)) := by
  subst hins houts
  have c2 : ¬(s.num_subgraph_outputs < 6) := by
    rw [hwout]; omega
  have c3 : ¬((((o0 :: o1 :: o2 :: o3 :: rest).length : Int) - 2) % 4 ≠ 0) := by
    simpa using hmod
  refine ⟨?_, ?_, ?_, ?_, ?_, ?_, ?_⟩ <;>
    · intros
      unfold Validate
      rw [if_neg (by simp [hwin]), if_neg c2, if_neg c3]
      simp only [List.getD_cons_zero, List.getD_cons_succ]
      simp_all

/-- Witness for C4: a one-layer signature that is correct except that input 1
is named `bad_mask` is rejected with the input-1 name-mismatch error. -/
theorem validate_name_mismatch_witness :
    (Validate ⟨3, 6, 0, 0, 0, 0, false, none, 0⟩
      [⟨"encoder_input_ids", 6, none⟩, ⟨"bad_mask", 6, none⟩, ⟨"decoder_input_ids", 6, none⟩]
      [⟨"logits", 1, none⟩, ⟨"encoder_hidden_states", 1, none⟩,
       ⟨"present_key_self_0", 1, none⟩, ⟨"present_value_self_0", 1, none⟩,
       ⟨"present_key_cross_0", 1, none⟩, ⟨"present_value_cross_0", 1, none⟩]).1 =
      some ("subgraph input 1 shall be named as encoder_attention_mask, got: " ++ "bad_mask") :=
  (validate_name_mismatch ⟨3, 6, 0, 0, 0, 0, false, none, 0⟩ _ _
    ⟨"encoder_input_ids", 6, none⟩ ⟨"bad_mask", 6, none⟩ ⟨"decoder_input_ids", 6, none⟩
    ⟨"logits", 1, none⟩ ⟨"encoder_hidden_states", 1, none⟩
    ⟨"present_key_self_0", 1, none⟩ ⟨"present_value_self_0", 1, none⟩
    [⟨"present_key_cross_0", 1, none⟩, ⟨"present_value_cross_0", 1, none⟩]
    rfl rfl (by decide) (by decide) (by decide) (by decide)).2.1 rfl (by decide)

/-- C5: for a signature that passes the count checks, the name checks and the
shape-derived parameter extraction, `Validate` fails with the unsupported-
data-type error whenever one of the three inputs is not an int32 tensor or
output 0 is neither float nor float16 (each conjunct cites the first
offending descriptor), and such a signature is never accepted. -/
theorem validate_unsupported_dtype
    (s : SubgraphState) (subgraph_inputs subgraph_outputs : List NodeArg)
    (i0 i1 i2 o0 o1 o2 o3 : NodeArg) (rest : List NodeArg)
    (hins : subgraph_inputs = [i0, i1, i2])
    (houts : subgraph_outputs = o0 :: o1 :: o2 :: o3 :: rest)
    (hwin : s.num_subgraph_inputs = 3)
    (hwout : s.num_subgraph_outputs = (subgraph_outputs.length : Int))
    (h6 : 6 ≤ subgraph_outputs.length)
    (hmod : ((subgraph_outputs.length : Int) - 2) % 4 = 0)
    (hn0 : i0.name = "encoder_input_ids")
    (hn1 : i1.name = "encoder_attention_mask")
    (hn2 : i2.name = "decoder_input_ids")
    (hm0 : o0.name = "logits")
    (hm1 : o1.name = "encoder_hidden_states")
    (hm2 : o2.name = "present_key_self_0")
    (hm3 : o3.name = "present_value_self_0")
    (nh hs hid : Int)
    (hGP : GetParameters o2.shape o0.shape = Except.ok (nh, hs, hid)) :
    (i0.elem_type ≠ TensorProto_DataType_INT32 →
      (Validate s subgraph_inputs subgraph_outputs).1 =
        some "subgraph input 0 (input_ids) shall have int32 type") ∧
    (i0.elem_type = TensorProto_DataType_INT32 →
      i1.elem_type ≠ TensorProto_DataType_INT32 →
      (Validate s subgraph_inputs subgraph_outputs).1 =
        some "subgraph input 1 (position_ids) shall have int32 type") ∧
    (i0.elem_type = TensorProto_DataType_INT32 →
      i1.elem_type = TensorProto_DataType_INT32 →
      i2.elem_type ≠ TensorProto_DataType_INT32 →
      (Validate s subgraph_inputs subgraph_outputs).1 =
        some "subgraph input 2 (position_ids) shall have int32 type") ∧
    (i0.elem_type = TensorProto_DataType_INT32 →
      i1.elem_type = TensorProto_DataType_INT32 →
      i2.elem_type = TensorProto_DataType_INT32 →
      o0.elem_type ≠ TensorProto_DataType_FLOAT →
      o0.elem_type ≠ TensorProto_DataType_FLOAT16 →
      (Validate s subgraph_inputs subgraph_outputs).1 =
        some "subgraph output 0 (logits) shall be float or float16 data type") ∧
    ((i0.elem_type ≠ TensorProto_DataType_INT32 ∨
      i1.elem_type ≠ TensorProto_DataType_INT32 ∨
      i2.elem_type ≠ TensorProto_DataType_INT32 ∨
      (o0.elem_type ≠ TensorProto_DataType_FLOAT ∧
       o0.elem_type ≠ TensorProto_DataType_FLOAT16)) →
      (Validate s subgraph_inputs subgraph_outputs).1 ≠ none) := by
  subst hins houts
  have c2 : ¬(s.num_subgraph_outputs < 6) := by
    rw [hwout]; omega
  have c3 : ¬((((o0 :: o1 :: o2 :: o3 :: rest).length : Int) - 2) % 4 ≠ 0) := by
    simpa using hmod
  have key : ∀ P : Option String × SubgraphState → Prop,
      (∀ s2 : SubgraphState,
        P (if i0.elem_type ≠ TensorProto_DataType_INT32 then
            (some "subgraph input 0 (input_ids) shall have int32 type", s2)
          else if i1.elem_type ≠ TensorProto_DataType_INT32 then
            (some "subgraph input 1 (position_ids) shall have int32 type", s2)
          else if i2.elem_type ≠ TensorProto_DataType_INT32 then
            (some "subgraph input 2 (position_ids) shall have int32 type", s2)
          else if o0.elem_type ≠ TensorProto_DataType_FLOAT ∧
              o0.elem_type ≠ TensorProto_DataType_FLOAT16 then
            (some "subgraph output 0 (logits) shall be float or float16 data type", s2)
          else
            (none, { s2 with is_output_float16_ :=
              o0.elem_type == TensorProto_DataType_FLOAT16 }))) →
      P (Validate s [i0, i1, i2] (o0 :: o1 :: o2 :: o3 :: rest)) := by
    intro P hP
    unfold Validate
    rw [if_neg (by simp [hwin]), if_neg c2, if_neg c3]
    simp only [List.getD_cons_zero, List.getD_cons_succ]
    rw [if_neg (show ¬(i0.name ≠ "encoder_input_ids") by simp [hn0]),
      if_neg (show ¬(i1.name ≠ "encoder_attention_mask") by simp [hn1]),
      if_neg (show ¬(i2.name ≠ "decoder_input_ids") by simp [hn2]),
      if_neg (show ¬(o0.name ≠ "logits") by simp [hm0]),
      if_neg (show ¬(o1.name ≠ "encoder_hidden_states") by simp [hm1]),
      if_neg (show ¬(o2.name ≠ "present_key_self_0") by simp [hm2]),
      if_neg (show ¬(o3.name ≠ "present_value_self_0") by simp [hm3]),
      hGP]
    exact hP _
  refine ⟨?_, ?_, ?_, ?_, ?_⟩
  · intro h
    refine key (fun r => r.1 = _) fun s2 => ?_
    rw [if_pos h]
  · intro h0 h
    refine key (fun r => r.1 = _) fun s2 => ?_
    rw [if_neg (by simp [h0]), if_pos h]
  · intro h0 h1 h
    refine key (fun r => r.1 = _) fun s2 => ?_
    rw [if_neg (by simp [h0]), if_neg (by simp [h1]), if_pos h]
  · intro h0 h1 h2 hf hf16
    refine key (fun r => r.1 = _) fun s2 => ?_
    rw [if_neg (by simp [h0]), if_neg (by simp [h1]), if_neg (by simp [h2]),
      if_pos ⟨hf, hf16⟩]
  · intro hbad
    refine key (fun r => r.1 ≠ none) fun s2 => ?_
    by_cases d0 : i0.elem_type ≠ TensorProto_DataType_INT32
    · rw [if_pos d0]; simp
    · rw [if_neg d0]
      by_cases d1 : i1.elem_type ≠ TensorProto_DataType_INT32
      · rw [if_pos d1]; simp
      · rw [if_neg d1]
        by_cases d2 : i2.elem_type ≠ TensorProto_DataType_INT32
        · rw [if_pos d2]; simp
        · rw [if_neg d2]
          by_cases d3 : o0.elem_type ≠ TensorProto_DataType_FLOAT ∧
              o0.elem_type ≠ TensorProto_DataType_FLOAT16
          · rw [if_pos d3]; simp
          · exact absurd hbad (by push_neg at d0 d1 d2 ⊢; tauto)

/-- Witness for C5: a one-layer signature with the contract names and
resolvable shapes but an int64 (code 7) input 0 is rejected with the input-0
dtype error and is not accepted. -/
theorem validate_unsupported_dtype_witness :
    (Validate ⟨3, 6, 0, 0, 0, 0, false, none, 0⟩
      [⟨"encoder_input_ids", 7, none⟩, ⟨"encoder_attention_mask", 6, none⟩,
       ⟨"decoder_input_ids", 6, none⟩]
      [⟨"logits", 1, some [none, none, some 512]⟩, ⟨"encoder_hidden_states", 1, none⟩,
       ⟨"present_key_self_0", 1, some [none, some 8, none, some 64]⟩,
       ⟨"present_value_self_0", 1, none⟩, ⟨"present_key_cross_0", 1, none⟩,
       ⟨"present_value_cross_0", 1, none⟩]).1 =
      some "subgraph input 0 (input_ids) shall have int32 type" :=
  (validate_unsupported_dtype ⟨3, 6, 0, 0, 0, 0, false, none, 0⟩ _ _
    ⟨"encoder_input_ids", 7, none⟩ ⟨"encoder_attention_mask", 6, none⟩
    ⟨"decoder_input_ids", 6, none⟩
    ⟨"logits", 1, some [none, none, some 512]⟩ ⟨"encoder_hidden_states", 1, none⟩
    ⟨"present_key_self_0", 1, some [none, some 8, none, some 64]⟩
    ⟨"present_value_self_0", 1, none⟩
    [⟨"present_key_cross_0", 1, none⟩, ⟨"present_value_cross_0", 1, none⟩]
    rfl rfl (by decide) (by decide) (by decide) (by decide)
    rfl rfl rfl rfl rfl rfl rfl 8 64 512 rfl).1 (by decide)

set_option maxHeartbeats 1600000 in
/-- C9: `Validate` has no side effect beyond the ModelParameters fields: on
every input, whether it succeeds or fails, the resulting object state agrees
with the initial state on every member other than `num_layers`, `num_heads`,
`head_size`, `hidden_size` and `is_output_float16_` (the captured input and
output counts, the session-state binding, and all remaining members). -/
theorem validate_frame (s : SubgraphState) (subgraph_inputs subgraph_outputs : List NodeArg) :
    (Validate s subgraph_inputs subgraph_outputs).2.num_subgraph_inputs =
      s.num_subgraph_inputs ∧
    (Validate s subgraph_inputs subgraph_outputs).2.num_subgraph_outputs =
      s.num_subgraph_outputs ∧
    (Validate s subgraph_inputs subgraph_outputs).2.session_state_ = s.session_state_ ∧
    (Validate s subgraph_inputs subgraph_outputs).2.other_members = s.other_members := by
  unfold Validate
  by_cases h1 : s.num_subgraph_inputs ≠ 3
  · rw [if_pos h1]; exact ⟨rfl, rfl, rfl, rfl⟩
  rw [if_neg h1]
  by_cases h2 : s.num_subgraph_outputs < 6
  · rw [if_pos h2]; exact ⟨rfl, rfl, rfl, rfl⟩
  rw [if_neg h2]
  by_cases h3 : ((subgraph_outputs.length : Int) - 2) % 4 ≠ 0
  · rw [if_pos h3]; exact ⟨rfl, rfl, rfl, rfl⟩
  rw [if_neg h3]
  by_cases h4 : (subgraph_inputs.getD 0 default).name ≠ "encoder_input_ids"
  · rw [if_pos h4]; exact ⟨rfl, rfl, rfl, rfl⟩
  rw [if_neg h4]
  by_cases h5 : (subgraph_inputs.getD 1 default).name ≠ "encoder_attention_mask"
  · rw [if_pos h5]; exact ⟨rfl, rfl, rfl, rfl⟩
  rw [if_neg h5]
  by_cases h6 : (subgraph_inputs.getD 2 default).name ≠ "decoder_input_ids"
  · rw [if_pos h6]; exact ⟨rfl, rfl, rfl, rfl⟩
  rw [if_neg h6]
  by_cases h7 : (subgraph_outputs.getD 0 default).name ≠ "logits"
  · rw [if_pos h7]; exact ⟨rfl, rfl, rfl, rfl⟩
  rw [if_neg h7]
  by_cases h8 : (subgraph_outputs.getD 1 default).name ≠ "encoder_hidden_states"
  · rw [if_pos h8]; exact ⟨rfl, rfl, rfl, rfl⟩
  rw [if_neg h8]
  by_cases h9 : (subgraph_outputs.getD 2 default).name ≠ "present_key_self_0"
  · rw [if_pos h9]; exact ⟨rfl, rfl, rfl, rfl⟩
  rw [if_neg h9]
  by_cases h10 : (subgraph_outputs.getD 3 default).name ≠ "present_value_self_0"
  · rw [if_pos h10]; exact ⟨rfl, rfl, rfl, rfl⟩
  rw [if_neg h10]
  rcases hg : GetParameters (subgraph_outputs.getD 2 default).shape
      (subgraph_outputs.getD 0 default).shape with e | ⟨nh, hs, hid⟩
  · exact ⟨rfl, rfl, rfl, rfl⟩
  dsimp only
  by_cases d1 : (subgraph_inputs.getD 0 default).elem_type ≠ TensorProto_DataType_INT32
  · rw [if_pos d1]; exact ⟨rfl, rfl, rfl, rfl⟩
  rw [if_neg d1]
  by_cases d2 : (subgraph_inputs.getD 1 default).elem_type ≠ TensorProto_DataType_INT32
  · rw [if_pos d2]; exact ⟨rfl, rfl, rfl, rfl⟩
  rw [if_neg d2]
  by_cases d3 : (subgraph_inputs.getD 2 default).elem_type ≠ TensorProto_DataType_INT32
  · rw [if_pos d3]; exact ⟨rfl, rfl, rfl, rfl⟩
  rw [if_neg d3]
  by_cases d4 : (subgraph_outputs.getD 0 default).elem_type ≠ TensorProto_DataType_FLOAT ∧
      (subgraph_outputs.getD 0 default).elem_type ≠ TensorProto_DataType_FLOAT16
  · rw [if_pos d4]; exact ⟨rfl, rfl, rfl, rfl⟩
  rw [if_neg d4]
  exact ⟨rfl, rfl, rfl, rfl⟩

/-- C10: `Validate` is not atomic on failure: for a signature that passes the
count checks, the name checks and shape extraction but violates an
element-type requirement, the call returns an error, yet the returned object
state already carries `num_layers = (output_count − 2) / 4` and the
shape-derived `num_heads`, `head_size` and `hidden_size`, because the dtype
checks run after `GetParameters` and the `num_layers` assignment. -/
theorem validate_not_atomic_on_dtype_failure
    (s : SubgraphState) (subgraph_inputs subgraph_outputs : List NodeArg)
    (i0 i1 i2 o0 o1 o2 o3 : NodeArg) (rest : List NodeArg)
    (hins : subgraph_inputs = [i0, i1, i2])
    (houts : subgraph_outputs = o0 :: o1 :: o2 :: o3 :: rest)
    (hwin : s.num_subgraph_inputs = 3)
    (hwout : s.num_subgraph_outputs = (subgraph_outputs.length : Int))
    (h6 : 6 ≤ subgraph_outputs.length)
    (hmod : ((subgraph_outputs.length : Int) - 2) % 4 = 0)
    (hn0 : i0.name = "encoder_input_ids")
    (hn1 : i1.name = "encoder_attention_mask")
    (hn2 : i2.name = "decoder_input_ids")
    (hm0 : o0.name = "logits")
    (hm1 : o1.name = "encoder_hidden_states")
    (hm2 : o2.name = "present_key_self_0")
    (hm3 : o3.name = "present_value_self_0")
    (nh hs hid : Int)
    (hGP : GetParameters o2.shape o0.shape = Except.ok (nh, hs, hid))
    (hbad : i0.elem_type ≠ TensorProto_DataType_INT32 ∨
      i1.elem_type ≠ TensorProto_DataType_INT32 ∨
      i2.elem_type ≠ TensorProto_DataType_INT32 ∨
      (o0.elem_type ≠ TensorProto_DataType_FLOAT ∧
       o0.elem_type ≠ TensorProto_DataType_FLOAT16)) :
    (Validate s subgraph_inputs subgraph_outputs).1 ≠ none ∧
    (Validate s subgraph_inputs subgraph_outputs).2.num_layers =
      ((subgraph_outputs.length : Int) - 2) / 4 ∧
    (Validate s subgraph_inputs subgraph_outputs).2.num_heads = nh ∧
    (Validate s subgraph_inputs subgraph_outputs).2.head_size = hs ∧
    (Validate s subgraph_inputs subgraph_outputs).2.hidden_size = hid := by
  subst hins houts
  have c2 : ¬(s.num_subgraph_outputs < 6) := by
    rw [hwout]; omega
  have c3 : ¬((((o0 :: o1 :: o2 :: o3 :: rest).length : Int) - 2) % 4 ≠ 0) := by
    simpa using hmod
  have key : ∀ P : Option String × SubgraphState → Prop,
      (∀ s2 : SubgraphState,
        s2.num_layers = (((o0 :: o1 :: o2 :: o3 :: rest).length : Int) - 2) / 4 →
        s2.num_heads = nh → s2.head_size = hs → s2.hidden_size = hid →
        P (if i0.elem_type ≠ TensorProto_DataType_INT32 then
            (some "subgraph input 0 (input_ids) shall have int32 type", s2)
          else if i1.elem_type ≠ TensorProto_DataType_INT32 then
            (some "subgraph input 1 (position_ids) shall have int32 type", s2)
          else if i2.elem_type ≠ TensorProto_DataType_INT32 then
            (some "subgraph input 2 (position_ids) shall have int32 type", s2)
          else if o0.elem_type ≠ TensorProto_DataType_FLOAT ∧
              o0.elem_type ≠ TensorProto_DataType_FLOAT16 then
            (some "subgraph output 0 (logits) shall be float or float16 data type", s2)
          else
            (none, { s2 with is_output_float16_ :=
              o0.elem_type == TensorProto_DataType_FLOAT16 }))) →
      P (Validate s [i0, i1, i2] (o0 :: o1 :: o2 :: o3 :: rest)) := by
    intro P hP
    unfold Validate
    rw [if_neg (by simp [hwin]), if_neg c2, if_neg c3]
    simp only [List.getD_cons_zero, List.getD_cons_succ]
    rw [if_neg (show ¬(i0.name ≠ "encoder_input_ids") by simp [hn0]),
      if_neg (show ¬(i1.name ≠ "encoder_attention_mask") by simp [hn1]),
      if_neg (show ¬(i2.name ≠ "decoder_input_ids") by simp [hn2]),
      if_neg (show ¬(o0.name ≠ "logits") by simp [hm0]),
      if_neg (show ¬(o1.name ≠ "encoder_hidden_states") by simp [hm1]),
      if_neg (show ¬(o2.name ≠ "present_key_self_0") by simp [hm2]),
      if_neg (show ¬(o3.name ≠ "present_value_self_0") by simp [hm3]),
      hGP]
    exact hP _ rfl rfl rfl rfl
  refine key
    (fun r => r.1 ≠ none ∧
      r.2.num_layers = (((o0 :: o1 :: o2 :: o3 :: rest).length : Int) - 2) / 4 ∧
      r.2.num_heads = nh ∧ r.2.head_size = hs ∧ r.2.hidden_size = hid)
    fun s2 e1 e2 e3 e4 => ?_
  by_cases d1 : i0.elem_type ≠ TensorProto_DataType_INT32
  · rw [if_pos d1]; exact ⟨by simp, e1, e2, e3, e4⟩
  rw [if_neg d1]
  by_cases d2 : i1.elem_type ≠ TensorProto_DataType_INT32
  · rw [if_pos d2]; exact ⟨by simp, e1, e2, e3, e4⟩
  rw [if_neg d2]
  by_cases d3 : i2.elem_type ≠ TensorProto_DataType_INT32
  · rw [if_pos d3]; exact ⟨by simp, e1, e2, e3, e4⟩
  rw [if_neg d3]
  by_cases d4 : o0.elem_type ≠ TensorProto_DataType_FLOAT ∧
      o0.elem_type ≠ TensorProto_DataType_FLOAT16
  · rw [if_pos d4]; exact ⟨by simp, e1, e2, e3, e4⟩
  · exact absurd hbad (by push_neg at d1 d2 d3 ⊢; tauto)

/-- Witness for C10: a one-layer signature that is fully contract-conformant
except that its logits output is int64 (code 7) is rejected, yet the returned
state carries `num_layers = 1`, `num_heads = 8`, `head_size = 64` and
`hidden_size = 512`. -/
theorem validate_not_atomic_on_dtype_failure_witness :
    (Validate ⟨3, 6, 0, 0, 0, 0, false, none, 0⟩
      [⟨"encoder_input_ids", 6, none⟩, ⟨"encoder_attention_mask", 6, none⟩,
       ⟨"decoder_input_ids", 6, none⟩]
      [⟨"logits", 7, some [none, none, some 512]⟩, ⟨"encoder_hidden_states", 1, none⟩,
       ⟨"present_key_self_0", 1, some [none, some 8, none, some 64]⟩,
       ⟨"present_value_self_0", 1, none⟩, ⟨"present_key_cross_0", 1, none⟩,
       ⟨"present_value_cross_0", 1, none⟩]).1 ≠ none ∧
    (Validate ⟨3, 6, 0, 0, 0, 0, false, none, 0⟩
      [⟨"encoder_input_ids", 6, none⟩, ⟨"encoder_attention_mask", 6, none⟩,
       ⟨"decoder_input_ids", 6, none⟩]
      [⟨"logits", 7, some [none, none, some 512]⟩, ⟨"encoder_hidden_states", 1, none⟩,
       ⟨"present_key_self_0", 1, some [none, some 8, none, some 64]⟩,
       ⟨"present_value_self_0", 1, none⟩, ⟨"present_key_cross_0", 1, none⟩,
       ⟨"present_value_cross_0", 1, none⟩]).2.num_layers =
      ((([⟨"logits", 7, some [none, none, some 512]⟩, ⟨"encoder_hidden_states", 1, none⟩,
        ⟨"present_key_self_0", 1, some [none, some 8, none, some 64]⟩,
        ⟨"present_value_self_0", 1, none⟩, ⟨"present_key_cross_0", 1, none⟩,
        ⟨"present_value_cross_0", 1, none⟩] : List NodeArg).length : Int) - 2) / 4 ∧
    (Validate ⟨3, 6, 0, 0, 0, 0, false, none, 0⟩
      [⟨"encoder_input_ids", 6, none⟩, ⟨"encoder_attention_mask", 6, none⟩,
       ⟨"decoder_input_ids", 6, none⟩]
      [⟨"logits", 7, some [none, none, some 512]⟩, ⟨"encoder_hidden_states", 1, none⟩,
       ⟨"present_key_self_0", 1, some [none, some 8, none, some 64]⟩,
       ⟨"present_value_self_0", 1, none⟩, ⟨"present_key_cross_0", 1, none⟩,
       ⟨"present_value_cross_0", 1, none⟩]).2.num_heads = 8 ∧
    (Validate ⟨3, 6, 0, 0, 0, 0, false, none, 0⟩
      [⟨"encoder_input_ids", 6, none⟩, ⟨"encoder_attention_mask", 6, none⟩,
       ⟨"decoder_input_ids", 6, none⟩]
      [⟨"logits", 7, some [none, none, some 512]⟩, ⟨"encoder_hidden_states", 1, none⟩,
       ⟨"present_key_self_0", 1, some [none, some 8, none, some 64]⟩,
       ⟨"present_value_self_0", 1, none⟩, ⟨"present_key_cross_0", 1, none⟩,
       ⟨"present_value_cross_0", 1, none⟩]).2.head_size = 64 ∧
    (Validate ⟨3, 6, 0, 0, 0, 0, false, none, 0⟩
      [⟨"encoder_input_ids", 6, none⟩, ⟨"encoder_attention_mask", 6, none⟩,
       ⟨"decoder_input_ids", 6, none⟩]
      [⟨"logits", 7, some [none, none, some 512]⟩, ⟨"encoder_hidden_states", 1, none⟩,
       ⟨"present_key_self_0", 1, some [none, some 8, none, some 64]⟩,
       ⟨"present_value_self_0", 1, none⟩, ⟨"present_key_cross_0", 1, none⟩,
       ⟨"present_value_cross_0", 1, none⟩]).2.hidden_size = 512 :=
  validate_not_atomic_on_dtype_failure ⟨3, 6, 0, 0, 0, 0, false, none, 0⟩ _ _
    ⟨"encoder_input_ids", 6, none⟩ ⟨"encoder_attention_mask", 6, none⟩
    ⟨"decoder_input_ids", 6, none⟩
    ⟨"logits", 7, some [none, none, some 512]⟩ ⟨"encoder_hidden_states", 1, none⟩
    ⟨"present_key_self_0", 1, some [none, some 8, none, some 64]⟩
    ⟨"present_value_self_0", 1, none⟩
    [⟨"present_key_cross_0", 1, none⟩, ⟨"present_value_cross_0", 1, none⟩]
    rfl rfl (by decide) (by decide) (by decide) (by decide)
    rfl rfl rfl rfl rfl rfl rfl 8 64 512 rfl
    (Or.inr (Or.inr (Or.inr ⟨by decide, by decide⟩)))

/-- C6: calling `CreateInitialFeeds` before `Setup` has bound execution
resources (a null `session_state_`) fails with the not-initialized error for
every combination of otherwise-valid arguments, and leaves the feeds, the
sequence-length buffer and the scratch buffer untouched (no feeds are
produced). -/
theorem create_initial_feeds_requires_setup
    (s : SubgraphState) (encoder_input_ids : Tensor) (implicit_inputs : List OrtValue)
    (num_beams pad_token_id start_token_id : Int)
    (sequence_lengths : List Int) (feeds : List OrtValue) (buffer : Nat)
    (create_encoder_inputs_func : CreateEncoderInputsFunc)
    (add_to_feeds_func : AddToFeedsFunc)
    (hsess : s.session_state_ = none) :
    CreateInitialFeeds s encoder_input_ids implicit_inputs num_beams pad_token_id
      start_token_id sequence_lengths feeds buffer create_encoder_inputs_func
      add_to_feeds_func =
      (some "Setup must be called before CreateInitialFeeds",
        feeds, sequence_lengths, buffer) := by
  unfold CreateInitialFeeds
  rw [if_pos hsess]

/-- Witness for C6: with a null session state and otherwise-valid concrete
arguments, the call fails with the not-initialized error and the feed list
stays empty. -/
theorem create_initial_feeds_requires_setup_witness :
    CreateInitialFeeds ⟨3, 6, 1, 8, 64, 512, false, none, 0⟩ ⟨0⟩ [⟨9⟩] 4 0 1 [] [] 0
      (fun _ _ _ _ seq => (none, seq, ⟨1⟩, ⟨2⟩, ⟨3⟩))
      (fun t1 t2 t3 fs b => (none, fs ++ [t1, t2, t3], b)) =
      (some "Setup must be called before CreateInitialFeeds", [], [], 0) :=
  create_initial_feeds_requires_setup ⟨3, 6, 1, 8, 64, 512, false, none, 0⟩ ⟨0⟩ [⟨9⟩] 4 0 1
    [] [] 0 (fun _ _ _ _ seq => (none, seq, ⟨1⟩, ⟨2⟩, ⟨3⟩))
    (fun t1 t2 t3 fs b => (none, fs ++ [t1, t2, t3], b)) rfl

/-- C2: after `Setup`, when the Encoder-Input Expansion hook succeeds and the
Feed Assembly hook fulfils its contract (appending the three expanded tensors
to the initially empty feed list in order), `CreateInitialFeeds` succeeds and
the produced feed list is exactly the three explicit feeds at positions
0, 1, 2 followed by the implicit inputs in their original relative order,
unmodified, so its length is 3 + the number of implicit inputs. -/
theorem create_initial_feeds_order
    (s : SubgraphState) (encoder_input_ids : Tensor) (implicit_inputs : List OrtValue)
    (num_beams pad_token_id start_token_id : Int)
    (sequence_lengths : List Int) (buffer : Nat)
    (create_encoder_inputs_func : CreateEncoderInputsFunc)
    (add_to_feeds_func : AddToFeedsFunc)
    (hsess : s.session_state_ ≠ none)
    (seq1 : List Int) (e1 e2 e3 : OrtValue)
    (hc : create_encoder_inputs_func encoder_input_ids num_beams pad_token_id
      start_token_id sequence_lengths = (none, seq1, e1, e2, e3))
    (buffer1 : Nat)
    (ha : add_to_feeds_func e1 e2 e3 [] buffer = (none, [e1, e2, e3], buffer1)) :
    CreateInitialFeeds s encoder_input_ids implicit_inputs num_beams pad_token_id
      start_token_id sequence_lengths [] buffer create_encoder_inputs_func
      add_to_feeds_func =
      (none, [e1, e2, e3] ++ implicit_inputs, seq1, buffer1) ∧
    ([e1, e2, e3] ++ implicit_inputs).length = 3 + implicit_inputs.length ∧
    ([e1, e2, e3] ++ implicit_inputs).take 3 = [e1, e2, e3] ∧
    ([e1, e2, e3] ++ implicit_inputs).drop 3 = implicit_inputs := by
  refine ⟨?_, ?_, rfl, rfl⟩
  · unfold CreateInitialFeeds
    rw [if_neg hsess]
    simp only [hc, ha]
  · simp only [List.length_append, List.length_cons, List.length_nil]

/-- Witness for C2: with a ready subgraph, a succeeding expansion hook, the
contract-conformant assembly hook and two implicit inputs, the feed list is
the three explicit feeds followed by the two implicit inputs. -/
theorem create_initial_feeds_order_witness :
    CreateInitialFeeds ⟨3, 6, 1, 8, 64, 512, false, some 5, 0⟩ ⟨0⟩ [⟨8⟩, ⟨9⟩] 4 0 1 [7, 7] [] 0
      (fun _ _ _ _ _ => (none, [7, 7, 7, 7], ⟨1⟩, ⟨2⟩, ⟨3⟩))
      (fun t1 t2 t3 fs b => (none, fs ++ [t1, t2, t3], b)) =
      (none, [⟨1⟩, ⟨2⟩, ⟨3⟩] ++ [⟨8⟩, ⟨9⟩], [7, 7, 7, 7], 0) ∧
    (([⟨1⟩, ⟨2⟩, ⟨3⟩] ++ [⟨8⟩, ⟨9⟩] : List OrtValue)).length =
      3 + ([⟨8⟩, ⟨9⟩] : List OrtValue).length ∧
    (([⟨1⟩, ⟨2⟩, ⟨3⟩] ++ [⟨8⟩, ⟨9⟩] : List OrtValue)).take 3 = [⟨1⟩, ⟨2⟩, ⟨3⟩] ∧
    (([⟨1⟩, ⟨2⟩, ⟨3⟩] ++ [⟨8⟩, ⟨9⟩] : List OrtValue)).drop 3 = [⟨8⟩, ⟨9⟩] :=
  create_initial_feeds_order ⟨3, 6, 1, 8, 64, 512, false, some 5, 0⟩ ⟨0⟩ [⟨8⟩, ⟨9⟩] 4 0 1
    [7, 7] 0
    (fun _ _ _ _ _ => (none, [7, 7, 7, 7], ⟨1⟩, ⟨2⟩, ⟨3⟩))
    (fun t1 t2 t3 fs b => (none, fs ++ [t1, t2, t3], b))
    (by simp) [7, 7, 7, 7] ⟨1⟩ ⟨2⟩ ⟨3⟩ rfl 0 rfl

/-- C7: any error returned by the Encoder-Input Expansion hook or by the Feed
Assembly hook is propagated unchanged as the result of `CreateInitialFeeds`,
and in that case the implicit inputs are not appended: the feed list is
exactly what it was before (expansion-hook failure) or exactly what the
assembly hook left (assembly-hook failure), with nothing appended by this
function. -/
theorem create_initial_feeds_propagates_hook_errors
    (s : SubgraphState) (encoder_input_ids : Tensor) (implicit_inputs : List OrtValue)
    (num_beams pad_token_id start_token_id : Int)
    (sequence_lengths : List Int) (feeds : List OrtValue) (buffer : Nat)
    (create_encoder_inputs_func : CreateEncoderInputsFunc)
    (add_to_feeds_func : AddToFeedsFunc)
    (hsess : s.session_state_ ≠ none) :
    (∀ e seq1 t1 t2 t3,
      create_encoder_inputs_func encoder_input_ids num_beams pad_token_id
        start_token_id sequence_lengths = (some e, seq1, t1, t2, t3) →
      CreateInitialFeeds s encoder_input_ids implicit_inputs num_beams pad_token_id
        start_token_id sequence_lengths feeds buffer create_encoder_inputs_func
        add_to_feeds_func = (some e, feeds, seq1, buffer)) ∧
    (∀ seq1 t1 t2 t3,
      create_encoder_inputs_func encoder_input_ids num_beams pad_token_id
        start_token_id sequence_lengths = (none, seq1, t1, t2, t3) →
      ∀ e feeds1 buffer1,
      add_to_feeds_func t1 t2 t3 feeds buffer = (some e, feeds1, buffer1) →
      CreateInitialFeeds s encoder_input_ids implicit_inputs num_beams pad_token_id
        start_token_id sequence_lengths feeds buffer create_encoder_inputs_func
        add_to_feeds_func = (some e, feeds1, seq1, buffer1)) := by
  constructor
  · intro e seq1 t1 t2 t3 hc
    unfold CreateInitialFeeds
    rw [if_neg hsess]
    simp only [hc]
  · intro seq1 t1 t2 t3 hc e feeds1 buffer1 ha
    unfold CreateInitialFeeds
    rw [if_neg hsess]
    simp only [hc, ha]

/-- Witness for C7: a failing expansion hook propagates its allocation error
unchanged and the feed list keeps its prior contents with no implicit input
appended. -/
theorem create_initial_feeds_propagates_hook_errors_witness :
    CreateInitialFeeds ⟨3, 6, 1, 8, 64, 512, false, some 5, 0⟩ ⟨0⟩ [⟨8⟩, ⟨9⟩] 4 0 1 [7, 7] [] 0
      (fun _ _ _ _ seq => (some "AllocationError", seq, ⟨1⟩, ⟨2⟩, ⟨3⟩))
      (fun t1 t2 t3 fs b => (none, fs ++ [t1, t2, t3], b)) =
      (some "AllocationError", [], [7, 7], 0) :=
  (create_initial_feeds_propagates_hook_errors ⟨3, 6, 1, 8, 64, 512, false, some 5, 0⟩
    ⟨0⟩ [⟨8⟩, ⟨9⟩] 4 0 1 [7, 7] [] 0
    (fun _ _ _ _ seq => (some "AllocationError", seq, ⟨1⟩, ⟨2⟩, ⟨3⟩))
    (fun t1 t2 t3 fs b => (none, fs ++ [t1, t2, t3], b))
    (by simp)).1 "AllocationError" [7, 7] ⟨1⟩ ⟨2⟩ ⟨3⟩ rfl

/-- Unfolding equation: expanding a batch row prepends its `num_beams`
replicas to the expansion of the remaining rows. -/
theorem expandSequenceLengths_cons (x : Int) (t : List Int) (n : Nat) :
    expandSequenceLengths (x :: t) n =
      List.replicate n x ++ expandSequenceLengths t n := rfl

/-- The expanded sequence-length buffer has length batch_size times num_beams. -/
theorem expandSequenceLengths_length (ls : List Int) (n : Nat) :
    (expandSequenceLengths ls n).length = ls.length * n := by
  induction ls with
  | nil => simp [expandSequenceLengths]
  | cons x t ih =>
    rw [expandSequenceLengths_cons]
    simp only [List.length_append, List.length_replicate, List.length_cons, ih]
    ring

/-- Every entry of a replicated list is the replicated value. -/
theorem getD_replicate_of_lt (n : Nat) (x d : Int) (i : Nat) (h : i < n) :
    (List.replicate n x).getD i d = x := by
  induction n generalizing i with
  | zero => omega
  | succ m ih =>
    cases i with
    | zero => rfl
    | succ k =>
      rw [List.replicate_succ, List.getD_cons_succ]
      exact ih k (by omega)

/-- In the expanded buffer, the entry for beam `i` of batch row `b` is that
row's original sequence length. -/
theorem expandSequenceLengths_getD (ls : List Int) (n b i : Nat)
    (hb : b < ls.length) (hi : i < n) :
    (expandSequenceLengths ls n).getD (b * n + i) 0 = ls.getD b 0 := by
  induction ls generalizing b with
  | nil => simp at hb
  | cons x t ih =>
    rw [expandSequenceLengths_cons]
    cases b with
    | zero =>
      simp only [Nat.zero_mul, Nat.zero_add]
      rw [List.getD_append _ _ _ _ (by simpa using hi)]
      exact getD_replicate_of_lt n x 0 i hi
    | succ k =>
      have hidx : (k + 1) * n + i = (List.replicate n x).length + (k * n + i) := by
        simp [Nat.succ_mul]
        omega
      rw [hidx, List.getD_append_right _ _ _ _ (Nat.le_add_right _ _), Nat.add_sub_cancel_left,
        List.getD_cons_succ]
      exact ih k (by simpa using hb)

/-- C8: with the spec-modelled Encoder-Input Expansion hook, a successful
`CreateInitialFeeds` call returns the sequence-length buffer sized
batch_size times num_beams, fully initialized, and every beam within a batch
row holds an identical sequence length (entries at positions b*num_beams + i
and b*num_beams + j agree for all beams i, j of row b). -/
theorem create_initial_feeds_sequence_lengths
    (s : SubgraphState) (encoder_input_ids : Tensor) (implicit_inputs : List OrtValue)
    (num_beams pad_token_id start_token_id : Int)
    (sequence_lengths : List Int) (feeds : List OrtValue) (buffer : Nat)
    (original_lengths : List Int) (e1 e2 e3 : OrtValue)
    (add_to_feeds_func : AddToFeedsFunc)
    (hsess : s.session_state_ ≠ none)
    (feeds1 : List OrtValue) (buffer1 : Nat)
    (ha : add_to_feeds_func e1 e2 e3 feeds buffer = (none, feeds1, buffer1)) :
    CreateInitialFeeds s encoder_input_ids implicit_inputs num_beams pad_token_id
      start_token_id sequence_lengths feeds buffer
      (specEncoderInputsHook original_lengths e1 e2 e3) add_to_feeds_func =
      (none, feeds1 ++ implicit_inputs,
        expandSequenceLengths original_lengths num_beams.toNat, buffer1) ∧
    (expandSequenceLengths original_lengths num_beams.toNat).length =
      original_lengths.length * num_beams.toNat ∧
    (∀ b i j, b < original_lengths.length → i < num_beams.toNat → j < num_beams.toNat →
      (expandSequenceLengths original_lengths num_beams.toNat).getD
        (b * num_beams.toNat + i) 0 =
      (expandSequenceLengths original_lengths num_beams.toNat).getD
        (b * num_beams.toNat + j) 0) := by
  refine ⟨?_, expandSequenceLengths_length _ _, ?_⟩
  · unfold CreateInitialFeeds
    rw [if_neg hsess]
    simp only [specEncoderInputsHook, ha]
  · intro b i j hb hi hj
    rw [expandSequenceLengths_getD _ _ _ _ hb hi, expandSequenceLengths_getD _ _ _ _ hb hj]

/-- Witness for C8: with batch_size 2 (original row lengths 5 and 9) and
num_beams 4, the returned sequence-length buffer is [5,5,5,5,9,9,9,9]: it has
length 8 and all entries within each 4-entry beam group are equal. -/
theorem create_initial_feeds_sequence_lengths_witness :
    CreateInitialFeeds ⟨3, 6, 1, 8, 64, 512, false, some 5, 0⟩ ⟨0⟩ [] 4 0 1 [] [] 0
      (specEncoderInputsHook [5, 9] ⟨1⟩ ⟨2⟩ ⟨3⟩)
      (fun t1 t2 t3 fs b => (none, fs ++ [t1, t2, t3], b)) =
      (none, ([⟨1⟩, ⟨2⟩, ⟨3⟩] : List OrtValue) ++ [],
        expandSequenceLengths [5, 9] (4 : Int).toNat, 0) ∧
    (expandSequenceLengths [5, 9] (4 : Int).toNat).length =
      ([5, 9] : List Int).length * (4 : Int).toNat ∧
    (∀ b i j, b < ([5, 9] : List Int).length → i < (4 : Int).toNat → j < (4 : Int).toNat →
      (expandSequenceLengths [5, 9] (4 : Int).toNat).getD (b * (4 : Int).toNat + i) 0 =
      (expandSequenceLengths [5, 9] (4 : Int).toNat).getD (b * (4 : Int).toNat + j) 0) :=
  create_initial_feeds_sequence_lengths ⟨3, 6, 1, 8, 64, 512, false, some 5, 0⟩ ⟨0⟩ [] 4 0 1
    [] [] 0 [5, 9] ⟨1⟩ ⟨2⟩ ⟨3⟩
    (fun t1 t2 t3 fs b => (none, fs ++ [t1, t2, t3], b))
    (by simp) [⟨1⟩, ⟨2⟩, ⟨3⟩] 0 rfl
